import Mathlib

/-!
Verification of the quix QUIC core against the source under src/:
the frame codec (src/qbase/src/frame), the packet-number-space reliability
engine (src/qrecovery/src/space.rs) and the stream-sender writer
(src/qrecovery/src/send/writer.rs). Pure functions are embedded as Lean
functions over `Nat` byte lists; stateful operations as explicit state
passing; panicking paths return `Option`. Components of the repository that
the claims need but whose source files are not under src/ (the varint codec,
the indexed deque, the ACK frame iteration, the muxer interface) are
modelled from the specification and marked as such in their doc comments.
-/

namespace Quix

/-- Upper bound of a QUIC variable-length integer, 2^62 - 1. -/
def VARINT_MAX : Nat := 2 ^ 62 - 1

/-- Modelled from the spec: the varint encoder of qbase/src/varint.rs (absent
from src/); spec 4.1: `encode(v, out)` writes `v` using the minimum of the
1/2/4/8-byte forms, the two most significant bits of the first byte encoding
the length. -/
def varintEncode (v : Nat) : List Nat :=
  if v < 2 ^ 6 then [v]
  else if v < 2 ^ 14 then [2 ^ 6 + v / 2 ^ 8, v % 2 ^ 8]
  else if v < 2 ^ 30 then
    [2 ^ 7 + v / 2 ^ 24, v / 2 ^ 16 % 2 ^ 8, v / 2 ^ 8 % 2 ^ 8, v % 2 ^ 8]
  else
    [2 ^ 7 + 2 ^ 6 + v / 2 ^ 56, v / 2 ^ 48 % 2 ^ 8, v / 2 ^ 40 % 2 ^ 8,
      v / 2 ^ 32 % 2 ^ 8, v / 2 ^ 24 % 2 ^ 8, v / 2 ^ 16 % 2 ^ 8,
      v / 2 ^ 8 % 2 ^ 8, v % 2 ^ 8]

/-- Modelled from the spec: `encoded_len(v)` of qbase/src/varint.rs (absent
from src/), returns 1, 2, 4 or 8 by value range (spec 4.1). -/
def varintEncodedLen (v : Nat) : Nat :=
  if v < 2 ^ 6 then 1
  else if v < 2 ^ 14 then 2
  else if v < 2 ^ 30 then 4
  else 8

/-- Modelled from the spec: the varint decoder `be_varint` of
qbase/src/varint.rs (absent from src/); spec 4.1: read the first byte, mask
the length bits, consume 1/2/4/8 total bytes, return the unsigned value;
fail (here `none`) when the buffer is shorter than required. -/
def varintDecode : List Nat → Option (Nat × List Nat)
  | [] => none
  | b :: r =>
    if b < 2 ^ 6 then some (b, r)
    else if b < 2 ^ 7 then
      match r with
      | b1 :: r1 => some ((b - 2 ^ 6) * 2 ^ 8 + b1, r1)
      | [] => none
    else if b < 2 ^ 7 + 2 ^ 6 then
      match r with
      | b1 :: b2 :: b3 :: r3 =>
        some ((b - 2 ^ 7) * 2 ^ 24 + b1 * 2 ^ 16 + b2 * 2 ^ 8 + b3, r3)
      | _ => none
    else
      match r with
      | b1 :: b2 :: b3 :: b4 :: b5 :: b6 :: b7 :: r7 =>
        some ((b - (2 ^ 7 + 2 ^ 6)) * 2 ^ 56 + b1 * 2 ^ 48 + b2 * 2 ^ 40 +
          b3 * 2 ^ 32 + b4 * 2 ^ 24 + b5 * 2 ^ 16 + b6 * 2 ^ 8 + b7, r7)
      | _ => none

theorem varint_roundtrip (v : Nat) (r : List Nat) (h : v ≤ VARINT_MAX) :
    varintDecode (varintEncode v ++ r) = some (v, r) := by
  have hmax : v ≤ 2 ^ 62 - 1 := h
  by_cases h1 : v < 2 ^ 6
  · rw [varintEncode, if_pos h1]
    simp only [List.cons_append, List.nil_append, varintDecode]
    rw [if_pos h1]
  · by_cases h2 : v < 2 ^ 14
    · rw [varintEncode, if_neg h1, if_pos h2]
      simp only [List.cons_append, List.nil_append, varintDecode]
      rw [if_neg (by omega), if_pos (by omega)]
      simp only [Option.some.injEq, Prod.mk.injEq, and_true]
      omega
    · by_cases h3 : v < 2 ^ 30
      · rw [varintEncode, if_neg h1, if_neg h2, if_pos h3]
        simp only [List.cons_append, List.nil_append, varintDecode]
        rw [if_neg (by omega), if_neg (by omega), if_pos (by omega)]
        simp only [Option.some.injEq, Prod.mk.injEq, and_true]
        omega
      · rw [varintEncode, if_neg h1, if_neg h2, if_neg h3]
        simp only [List.cons_append, List.nil_append, varintDecode]
        rw [if_neg (by omega), if_neg (by omega), if_neg (by omega)]
        simp only [Option.some.injEq, Prod.mk.injEq, and_true]
        omega

/-- The packet-number-space tag of qbase (`SpaceId`): Initial, Handshake,
0-RTT, 1-RTT. -/
inductive SpaceId
  | Initial
  | Handshake
  | ZeroRtt
  | OneRtt
  deriving DecidableEq

/-- The frame-type enum `FrameType` of src/qbase/src/frame/mod.rs. -/
inductive FrameType
  | Padding
  | Ping
  | DataBlocked
  | MaxData
  | MaxStreamData
  | MaxStreams (dir : Nat)
  | StreamDataBlocked
  | Ack (ecn : Nat)
  | Stream (flag : Nat)
  | ResetStream
  | StopSending
  | Crypto
  deriving DecidableEq

/-- `FrameType::try_from(u8)` of src/qbase/src/frame/mod.rs lines 38-58:
maps a (single-byte) type value to a frame kind, `none` for unknown values.
The named constants come from the respective frame modules (those absent
from src/ carry their standard QUIC values: Padding 0x00, Ping 0x01,
ResetStream 0x04, StopSending 0x05, Crypto 0x06, MaxData 0x10,
StreamDataBlocked 0x15). -/
def FrameType.tryFrom (b : Nat) : Option FrameType :=
  if b = 0x00 then some .Padding
  else if b = 0x01 then some .Ping
  else if b = 0x02 ∨ b = 0x03 then some (.Ack (b &&& 1))
  else if b = 0x04 then some .ResetStream
  else if b = 0x06 then some .Crypto
  else if b = 0x14 then some .DataBlocked
  else if b = 0x10 then some .MaxData
  else if b = 0x11 then some .MaxStreamData
  else if b = 0x12 ∨ b = 0x13 then some (.MaxStreams (b &&& 1))
  else if b = 0x05 then some .StopSending
  else if b = 0x15 then some .StreamDataBlocked
  else if 8 ≤ b ∧ b ≤ 15 then some (.Stream (b &&& 7))
  else none

/-- `be_frame_type` of src/qbase/src/frame/mod.rs lines 98-104: decode the
first varint of the payload and convert it with `FrameType::try_from`,
truncating the varint to its low byte first (`as u8`, here `% 2 ^ 8`). -/
def be_frame_type (input : List Nat) : Option (FrameType × List Nat) :=
  match varintDecode input with
  | none => none
  | some (v, rest) =>
    match FrameType.tryFrom (v % 2 ^ 8) with
    | none => none
    | some ft => some (ft, rest)

/-- The `StreamFrame` struct of src/qbase/src/frame/stream.rs: stream id,
offset, body length and the private 3-bit flag (OFF = 4, LEN = 2, FIN = 1).
Ids and varints are unsigned integers. -/
structure StreamFrame where
  id : Nat
  offset : Nat
  length : Nat
  flag : Nat
  deriving DecidableEq

def STREAM_FRAME_TYPE : Nat := 0x08

def OFF_BIT : Nat := 0x04

def LEN_BIT : Nat := 0x02

def FIN_BIT : Nat := 0x01

/-- `put_stream_frame` of src/qbase/src/frame/stream.rs lines 185-206: the
type byte is STREAM_FRAME_TYPE with OFF ored in when offset is nonzero, ored
with the frame's flag; then the stream id, the offset when nonzero, the
length as a 32-bit-truncated varint when the LEN bit is set, and the data.
The stream id is written with `put_streamid` (streamid.rs is absent from
src/; per the spec a stream identifier is a varint). -/
def put_stream_frame (f : StreamFrame) (data : List Nat) : List Nat :=
  let stream_type :=
    if f.offset ≠ 0 then STREAM_FRAME_TYPE ||| OFF_BIT else STREAM_FRAME_TYPE
  (stream_type ||| f.flag) ::
    (varintEncode f.id ++
      ((if f.offset ≠ 0 then varintEncode f.offset else []) ++
        ((if f.flag &&& LEN_BIT ≠ 0 then varintEncode (f.length % 2 ^ 32) else []) ++
          data)))

/-- `stream_frame_with_flag` of src/qbase/src/frame/stream.rs lines 148-179:
read the stream id, then the offset if the OFF bit is set (zero otherwise),
then the length if the LEN bit is set (rest of payload otherwise); reject
when offset + length exceeds VARINT_MAX. `be_streamid` (streamid.rs absent
from src/) reads a varint. -/
def stream_frame_with_flag (flag : Nat) (input : List Nat) :
    Option (StreamFrame × List Nat) :=
  match varintDecode input with
  | none => none
  | some (id, r1) =>
    match (if flag &&& OFF_BIT ≠ 0 then varintDecode r1 else some (0, r1)) with
    | none => none
    | some (offset, r2) =>
      match (if flag &&& LEN_BIT ≠ 0 then varintDecode r2 else some (r2.length, r2)) with
      | none => none
      | some (length, r3) =>
        if offset + length > VARINT_MAX then none
        else some (⟨id, offset, length, flag⟩, r3)

/-- The `DataBlockedFrame` struct of src/qbase/src/frame/data_blocked.rs. -/
structure DataBlockedFrame where
  limit : Nat
  deriving DecidableEq

def DATA_BLOCKED_FRAME_TYPE : Nat := 0x14

/-- The `BeFrame::frame_type` implementation for `DataBlockedFrame`,
src/qbase/src/frame/data_blocked.rs lines 16-18: it returns
`FrameType::Crypto`. -/
def DataBlockedFrame.frame_type (_ : DataBlockedFrame) : FrameType :=
  FrameType.Crypto

/-- `put_data_blocked_frame` of src/qbase/src/frame/data_blocked.rs lines
50-54: the type byte 0x14 followed by the limit varint. -/
def put_data_blocked_frame (f : DataBlockedFrame) : List Nat :=
  DATA_BLOCKED_FRAME_TYPE :: varintEncode f.limit

/-- `be_data_blocked_frame` of src/qbase/src/frame/data_blocked.rs lines
38-42: read the limit varint. -/
def be_data_blocked_frame (input : List Nat) :
    Option (DataBlockedFrame × List Nat) :=
  (varintDecode input).map (fun p => (⟨p.1⟩, p.2))

/-- The `MaxStreamDataFrame` struct of src/qbase/src/frame/max_stream_data.rs. -/
structure MaxStreamDataFrame where
  stream_id : Nat
  max_stream_data : Nat
  deriving DecidableEq

def MAX_STREAM_DATA_FRAME_TYPE : Nat := 0x11

/-- `put_max_stream_data_frame` of src/qbase/src/frame/max_stream_data.rs
lines 58-64: type byte 0x11, then the stream id and the limit varints. -/
def put_max_stream_data_frame (f : MaxStreamDataFrame) : List Nat :=
  MAX_STREAM_DATA_FRAME_TYPE ::
    (varintEncode f.stream_id ++ varintEncode f.max_stream_data)

/-- `be_max_stream_data_frame` of src/qbase/src/frame/max_stream_data.rs
lines 40-50: read the stream id and the limit. -/
def be_max_stream_data_frame (input : List Nat) :
    Option (MaxStreamDataFrame × List Nat) :=
  match varintDecode input with
  | none => none
  | some (sid, r1) =>
    match varintDecode r1 with
    | none => none
    | some (limit, r2) => some (⟨sid, limit⟩, r2)

/-- The `ConnectionCloseFrame` struct of
src/qbase/src/frame/connection_close.rs: error code, optional originating
frame type, reason phrase (modelled as its UTF-8 bytes). -/
structure ConnectionCloseFrame where
  error_code : Nat
  frame_type : Option Nat
  reason : List Nat
  deriving DecidableEq

def CONNECTION_CLOSE_FRAME_TYPE : Nat := 0x1c

def QUIC_LAYER : Nat := 1

def APP_LAYER : Nat := 0

/-- `put_connection_close_frame` of src/qbase/src/frame/connection_close.rs
lines 97-111: the layer bit is QUIC_LAYER (1) when the frame-type field is
present and APP_LAYER (0) when absent, ored into the 0x1c type byte; then
the error code, the optional frame type, the reason length (32-bit
truncated) and the reason bytes. -/
def put_connection_close_frame (f : ConnectionCloseFrame) : List Nat :=
  let layer := if f.frame_type.isSome then QUIC_LAYER else APP_LAYER
  (CONNECTION_CLOSE_FRAME_TYPE ||| layer) ::
    (varintEncode f.error_code ++
      ((match f.frame_type with
        | some ft => varintEncode ft
        | none => []) ++
        (varintEncode (f.reason.length % 2 ^ 32) ++ f.reason)))

/-- The `ReadFrame` enum of src/qbase/src/frame/mod.rs restricted to the
kinds whose codecs this development embeds (the parser modules of the other
kinds are not under src/). Padding and Ping carry unit structs. -/
inductive ReadFrame
  | Padding
  | Ping
  | Stream (f : StreamFrame) (data : List Nat)
  | DataBlocked (f : DataBlockedFrame)
  | MaxStreamData (f : MaxStreamDataFrame)
  deriving DecidableEq

/-- `be_frame` of src/qbase/src/frame/mod.rs lines 154-158 with
`complete_frame` lines 107-151: dispatch on `be_frame_type`, then run the
kind's parser; for Stream, slice the body of `frame.length` bytes out of the
remaining input (incomplete input is an error, mapped to `none`).
`be_padding_frame` and `be_ping_frame` (sources absent from src/) consume
nothing. Kinds whose parser modules are not under src/ (Ack, Crypto,
ResetStream, StopSending, MaxData, MaxStreams, StreamDataBlocked) are left
out of this embedding; no claim below depends on them. -/
def be_frame (input : List Nat) : Option (ReadFrame × List Nat) :=
  match be_frame_type input with
  | none => none
  | some (ft, rest) =>
    match ft with
    | .Padding => some (.Padding, rest)
    | .Ping => some (.Ping, rest)
    | .DataBlocked =>
      (be_data_blocked_frame rest).map (fun p => (.DataBlocked p.1, p.2))
    | .MaxStreamData =>
      (be_max_stream_data_frame rest).map (fun p => (.MaxStreamData p.1, p.2))
    | .Stream flag =>
      match stream_frame_with_flag flag rest with
      | none => none
      | some (f, r3) =>
        if r3.length < f.length then none
        else some (.Stream f (r3.take f.length), r3.drop f.length)
    | _ => none

/-- Round-trip of the Stream frame codec for frames whose flag is consistent
with the serializer's OFF-bit rule (`put_stream_frame` sets OFF on the wire
iff offset is nonzero) and whose length survives the serializer's 32-bit
length write. -/
theorem stream_frame_roundtrip (f : StreamFrame) (data : List Nat)
    (hid : f.id ≤ VARINT_MAX)
    (hol : f.offset + f.length ≤ VARINT_MAX)
    (hlen32 : f.length < 2 ^ 32)
    (hdata : data.length = f.length)
    (hflag : f.flag < 8)
    (hoff : f.flag &&& OFF_BIT = if f.offset = 0 then 0 else OFF_BIT) :
    be_frame (put_stream_frame f data) = some (.Stream f data, []) := by
  obtain ⟨id, off, len, flag⟩ := f
  simp only at hid hol hlen32 hdata hflag hoff ⊢
  have hoffle : off ≤ VARINT_MAX := le_trans (Nat.le_add_right _ _) hol
  have hlenle : len ≤ VARINT_MAX := le_trans (Nat.le_add_left _ _) hol
  have hmod : len % 2 ^ 32 = len := Nat.mod_eq_of_lt hlen32
  interval_cases flag <;>
  first
    | (have ho : off = 0 := by
         by_contra hc
         simp [OFF_BIT, hc,
           (by decide : ((0:Nat) &&& 4) = 0), (by decide : ((1:Nat) &&& 4) = 0),
           (by decide : ((2:Nat) &&& 4) = 0), (by decide : ((3:Nat) &&& 4) = 0),
           (by decide : ((4:Nat) &&& 4) = 4), (by decide : ((5:Nat) &&& 4) = 4),
           (by decide : ((6:Nat) &&& 4) = 4), (by decide : ((7:Nat) &&& 4) = 4)] at hoff
       subst ho
       simp only [put_stream_frame, STREAM_FRAME_TYPE, OFF_BIT, LEN_BIT, ne_eq, hmod,
         (by decide : ((0:Nat) &&& 2) = 0), (by decide : ((1:Nat) &&& 2) = 0),
         (by decide : ((2:Nat) &&& 2) = 2), (by decide : ((3:Nat) &&& 2) = 2),
         (by decide : ((4:Nat) &&& 2) = 0), (by decide : ((5:Nat) &&& 2) = 0),
         (by decide : ((6:Nat) &&& 2) = 2), (by decide : ((7:Nat) &&& 2) = 2),
         (by decide : ((8:Nat) ||| 0) = 8), (by decide : ((8:Nat) ||| 1) = 9),
         (by decide : ((8:Nat) ||| 2) = 10), (by decide : ((8:Nat) ||| 3) = 11),
         (by decide : ((8:Nat) ||| 4) = 12), (by decide : ((8:Nat) ||| 5) = 13),
         (by decide : ((8:Nat) ||| 6) = 14), (by decide : ((8:Nat) ||| 7) = 15)]
       norm_num
       try simp only [(by decide : ((8:Nat) ||| 0) = 8), (by decide : ((8:Nat) ||| 1) = 9),
         (by decide : ((8:Nat) ||| 2) = 10), (by decide : ((8:Nat) ||| 3) = 11),
         (by decide : ((8:Nat) ||| 4) = 12), (by decide : ((8:Nat) ||| 5) = 13),
         (by decide : ((8:Nat) ||| 6) = 14), (by decide : ((8:Nat) ||| 7) = 15)]
       simp only [be_frame, be_frame_type, varintDecode]
       norm_num
       simp only [FrameType.tryFrom]
       try norm_num
       try simp only [(by decide : ((8:Nat) &&& 7) = 0), (by decide : ((9:Nat) &&& 7) = 1),
         (by decide : ((10:Nat) &&& 7) = 2), (by decide : ((11:Nat) &&& 7) = 3),
         (by decide : ((12:Nat) &&& 7) = 4), (by decide : ((13:Nat) &&& 7) = 5),
         (by decide : ((14:Nat) &&& 7) = 6), (by decide : ((15:Nat) &&& 7) = 7)]
       simp only [stream_frame_with_flag]
       rw [varint_roundtrip id _ hid]
       simp only [OFF_BIT, LEN_BIT, ne_eq,
         (by decide : ((0:Nat) &&& 4) = 0), (by decide : ((1:Nat) &&& 4) = 0),
         (by decide : ((2:Nat) &&& 4) = 0), (by decide : ((3:Nat) &&& 4) = 0),
         (by decide : ((0:Nat) &&& 2) = 0), (by decide : ((1:Nat) &&& 2) = 0),
         (by decide : ((2:Nat) &&& 2) = 2), (by decide : ((3:Nat) &&& 2) = 2),
         (by decide : ((4:Nat) &&& 2) = 0), (by decide : ((5:Nat) &&& 2) = 0),
         (by decide : ((6:Nat) &&& 2) = 2), (by decide : ((7:Nat) &&& 2) = 2), hdata]
       norm_num
       try rw [varint_roundtrip len data hlenle]
       try norm_num
       try simp only [hdata]
       rw [if_neg (by simp only [VARINT_MAX] at *; omega)]
       simp [hdata, List.take_of_length_le (le_of_eq hdata), List.drop_eq_nil_of_le (le_of_eq hdata)]
       try exact hdata
       try omega)
    | (have ho : ¬ off = 0 := by
         intro hc
         simp [OFF_BIT, hc,
           (by decide : ((0:Nat) &&& 4) = 0), (by decide : ((1:Nat) &&& 4) = 0),
           (by decide : ((2:Nat) &&& 4) = 0), (by decide : ((3:Nat) &&& 4) = 0),
           (by decide : ((4:Nat) &&& 4) = 4), (by decide : ((5:Nat) &&& 4) = 4),
           (by decide : ((6:Nat) &&& 4) = 4), (by decide : ((7:Nat) &&& 4) = 4)] at hoff
       simp only [put_stream_frame, STREAM_FRAME_TYPE, OFF_BIT, LEN_BIT, ne_eq, hmod, ho,
         not_false_eq_true, if_true,
         (by decide : ((4:Nat) &&& 2) = 0), (by decide : ((5:Nat) &&& 2) = 0),
         (by decide : ((6:Nat) &&& 2) = 2), (by decide : ((7:Nat) &&& 2) = 2),
         (by decide : ((8:Nat) ||| 4) = 12),
         (by decide : ((12:Nat) ||| 4) = 12), (by decide : ((12:Nat) ||| 5) = 13),
         (by decide : ((12:Nat) ||| 6) = 14), (by decide : ((12:Nat) ||| 7) = 15)]
       norm_num
       simp only [be_frame, be_frame_type, varintDecode]
       norm_num
       simp only [FrameType.tryFrom]
       try norm_num
       try simp only [(by decide : ((12:Nat) &&& 7) = 4), (by decide : ((13:Nat) &&& 7) = 5),
         (by decide : ((14:Nat) &&& 7) = 6), (by decide : ((15:Nat) &&& 7) = 7)]
       simp only [stream_frame_with_flag]
       rw [varint_roundtrip id _ hid]
       simp only [OFF_BIT, LEN_BIT, ne_eq,
         (by decide : ((4:Nat) &&& 4) = 4), (by decide : ((5:Nat) &&& 4) = 4),
         (by decide : ((6:Nat) &&& 4) = 4), (by decide : ((7:Nat) &&& 4) = 4),
         (by decide : ((4:Nat) &&& 2) = 0), (by decide : ((5:Nat) &&& 2) = 0),
         (by decide : ((6:Nat) &&& 2) = 2), (by decide : ((7:Nat) &&& 2) = 2), hdata]
       norm_num
       rw [varint_roundtrip off _ hoffle]
       norm_num
       try rw [varint_roundtrip len data hlenle]
       try norm_num
       try simp only [hdata]
       rw [if_neg (by simp only [VARINT_MAX] at *; omega)]
       simp [hdata, List.take_of_length_le (le_of_eq hdata), List.drop_eq_nil_of_le (le_of_eq hdata)]
       try exact hdata
       try omega)

/-- The per-packet reception state `State` of src/qrecovery/src/space.rs
lines 53-64. Times are instants in microseconds. -/
inductive RState
  | NotReceived
  | Unreached
  | Ignored (t : Nat)
  | Important (t : Nat)
  | Synced (t : Nat)
  deriving DecidableEq

/-- `State::new_rcvd` of src/qrecovery/src/space.rs lines 67-73. -/
def RState.new_rcvd (t : Nat) (is_ack_eliciting : Bool) : RState :=
  if is_ack_eliciting then .Important t else .Ignored t

/-- `State::has_rcvd` of src/qrecovery/src/space.rs lines 75-80. -/
def RState.has_rcvd : RState → Bool
  | .Ignored _ | .Important _ | .Synced _ => true
  | _ => false

/-- `State::has_not_rcvd` of src/qrecovery/src/space.rs lines 82-84. -/
def RState.has_not_rcvd : RState → Bool
  | .NotReceived | .Unreached => true
  | _ => false

/-- `State::delay` of src/qrecovery/src/space.rs lines 86-91:
`t.elapsed()` is now - t. -/
def RState.delay (s : RState) (now : Nat) : Option Nat :=
  match s with
  | .Ignored t | .Important t | .Synced t => some (now - t)
  | _ => none

/-- `State::be_synced` of src/qrecovery/src/space.rs lines 93-101. -/
def RState.be_synced : RState → RState
  | .Ignored t | .Important t => .Synced t
  | .NotReceived => .Unreached
  | s => s

/-- Whether the state matches `State::NotReceived`. -/
def RState.isNotReceived : RState → Bool
  | .NotReceived => true
  | _ => false

/-- Whether the state matches `State::Important(_)`. -/
def RState.isImportant : RState → Bool
  | .Important _ => true
  | _ => false

/-- Modelled from the spec: the sparse indexed deque `IndexDeque` of
qrecovery/src/index_deque.rs (absent from src/): per spec 9, a ring of
slots plus a base offset; slot i of the structure holds the element with
index `offset + i`; draining advances the base. -/
structure IndexDeque (α : Type) where
  offset : Nat
  items : List α
  deriving DecidableEq

/-- Modelled from the spec: lookup of the element at absolute index `i`. -/
def IndexDeque.get {α : Type} (d : IndexDeque α) (i : Nat) : Option α :=
  if i < d.offset then none else d.items.get? (i - d.offset)

/-- Modelled from the spec: in-place replacement at absolute index `i`
(no-op when out of range). -/
def IndexDeque.set {α : Type} (d : IndexDeque α) (i : Nat) (v : α) : IndexDeque α :=
  if i < d.offset then d else ⟨d.offset, d.items.set (i - d.offset) v⟩

/-- Modelled from the spec: insert at absolute index `i`, filling skipped
slots with `default` (spec 4.4: insert creates NotReceived slots for the
skipped numbers); fails below the base or at the VARINT_MAX capacity bound. -/
def IndexDeque.insert {α : Type} (d : IndexDeque α) (i : Nat) (v : α) (default : α) :
    Option (IndexDeque α) :=
  if i < d.offset then none
  else if i - d.offset < d.items.length then some ⟨d.offset, d.items.set (i - d.offset) v⟩
  else if VARINT_MAX ≤ i then none
  else some ⟨d.offset,
    (d.items ++ List.replicate (i - d.offset - d.items.length) default) ++ [v]⟩

/-- Modelled from the spec: remove every slot with absolute index below `n`,
returning the removed elements and advancing the base. -/
def IndexDeque.drainTo {α : Type} (d : IndexDeque α) (n : Nat) :
    List α × IndexDeque α :=
  let k := min (n - d.offset) d.items.length
  (d.items.take k, ⟨d.offset + k, d.items.drop k⟩)

/-- Modelled from the spec: remove the first `n` slots (`drain(..n)`). -/
def IndexDeque.drainFront {α : Type} (d : IndexDeque α) (n : Nat) : IndexDeque α :=
  ⟨d.offset + min n d.items.length, d.items.drop n⟩

/-- Modelled from the spec: append at the next index, returning that index;
fails at the VARINT_MAX capacity bound. -/
def IndexDeque.push {α : Type} (d : IndexDeque α) (v : α) :
    Option (Nat × IndexDeque α) :=
  if VARINT_MAX ≤ d.offset + d.items.length then none
  else some (d.offset + d.items.length, ⟨d.offset, d.items ++ [v]⟩)

/-- Modelled from the spec: iteration in index order with absolute indices
(`iter_with_idx`). -/
def IndexDeque.iterWithIdx {α : Type} (d : IndexDeque α) : List (Nat × α) :=
  d.items.enum.map (fun p => (d.offset + p.1, p.2))

/-- Modelled from the spec: an abstract resendable control frame as the
space sees one (spec 4.3): the reliability engine only consults its
`encoding_size`/`max_encoding_size` and stores it verbatim; the `tag`
distinguishes frames. The concrete frame enum lives in qbase whose
pure-frame dispatch modules are not all under src/. -/
structure PureFrame where
  tag : Nat
  encoding_size : Nat
  max_encoding_size : Nat
  deriving DecidableEq

/-- The data-frame descriptor of a Packet record (spec 3: crypto-range or
stream-range; the bytes live in the sender buffers). -/
inductive DataFrame
  | Crypto (range : Nat × Nat)
  | Stream (range : Nat × Nat)
  deriving DecidableEq

/-- The `Record` enum of src/qrecovery/src/space.rs lines 45-49: an ACK
bookkeeping entry carrying that ACK's largest, a pure control frame, or a
data-frame descriptor. -/
inductive Record
  | Pure (f : PureFrame)
  | Data (d : DataFrame)
  | Ack (largest : Nat)
  deriving DecidableEq

/-- The `Packet` record of src/qrecovery/src/space.rs lines 104-110. -/
structure Packet where
  send_time : Nat
  payload : List Record
  sent_bytes : Nat
  is_ack_eliciting : Bool
  deriving DecidableEq

/-- `PACKET_THRESHOLD` of src/qrecovery/src/space.rs line 112. -/
def PACKET_THRESHOLD : Nat := 3

/-- Modelled from the spec: the `AckFrame` struct of qbase/src/frame/ack.rs
(absent from src/); spec 4.2: largest, delay (micros), range count,
first range, (gap, run) pairs, optional ECN triple. -/
structure AckFrame where
  largest : Nat
  delay : Nat
  first_range : Nat
  ranges : List (Nat × Nat)
  ecn : Option (Nat × Nat × Nat)
  deriving DecidableEq

/-- Modelled from the spec: `max_encoding_size` of an ACK frame (each varint
at most 8 bytes, each range pair at most 16, the ECN triple at most 24). -/
def AckFrame.max_encoding_size (a : AckFrame) : Nat :=
  1 + 8 * 4 + 16 * a.ranges.length + (if a.ecn.isSome then 24 else 0)

/-- Modelled from the spec: exact encoded size of an ACK frame from the
minimal varint lengths of its fields. -/
def AckFrame.encoding_size (a : AckFrame) : Nat :=
  1 + varintEncodedLen a.largest + varintEncodedLen a.delay +
    varintEncodedLen a.ranges.length + varintEncodedLen a.first_range +
    (a.ranges.map (fun p => varintEncodedLen p.1 + varintEncodedLen p.2)).sum +
    (if a.ecn.isSome then 24 else 0)

/-- The state of `Space` in src/qrecovery/src/space.rs lines 117-156:
pending control frames, the inflight and received indexed deques, and the
bookkeeping scalars. Instants and durations are in microseconds. -/
structure SpaceModel where
  space_id : SpaceId
  frames : List PureFrame
  inflight_packets : IndexDeque (Option Packet)
  disorder_tolerance : Nat
  time_of_last_sent_ack_eliciting_packet : Option Nat
  largest_acked_pktid : Option Nat
  loss_time : Option Nat
  rcvd_packets : IndexDeque RState
  largest_rcvd_ack_eliciting_pktid : Nat
  last_synced_ack_largest : Nat
  new_lost_event : Bool
  rcvd_unreached_packet : Bool
  time_to_sync : Option Nat
  max_ack_delay : Nat
  deriving DecidableEq

/-- `Space::build` of src/qrecovery/src/space.rs lines 163-182: the fresh
space (max_ack_delay 25 ms = 25000 us). -/
def SpaceModel.build (space_id : SpaceId) : SpaceModel where
  space_id := space_id
  frames := []
  inflight_packets := ⟨0, []⟩
  disorder_tolerance := 0
  time_of_last_sent_ack_eliciting_packet := none
  largest_acked_pktid := none
  loss_time := none
  rcvd_packets := ⟨0, []⟩
  largest_rcvd_ack_eliciting_pktid := 0
  last_synced_ack_largest := 0
  new_lost_event := false
  rcvd_unreached_packet := false
  time_to_sync := none
  max_ack_delay := 25000

/-- `Space::need_send_ack_frame` of src/qrecovery/src/space.rs lines
429-454: false for 0-RTT; true when new_lost_event or
rcvd_unreached_packet; otherwise compares `t > Instant::now()` (that is,
now < t) when time_to_sync is set. -/
def SpaceModel.need_send_ack_frame (s : SpaceModel) (now : Nat) : Bool :=
  if s.space_id = SpaceId.ZeroRtt then false
  else if s.new_lost_event || s.rcvd_unreached_packet then true
  else
    match s.time_to_sync with
    | some t => decide (now < t)
    | none => false

/-- The claim's (spec 4.3) condition for need_send_ack, stated in the
spec's words: not 0-RTT, at least one Important slot in rcvd, and one of
new_lost_event, rcvd_unreached_packet, or time_to_sync has arrived
(time_to_sync ≤ now). -/
def specNeedSendAck (s : SpaceModel) (now : Nat) : Bool :=
  decide (s.space_id ≠ SpaceId.ZeroRtt) &&
    s.rcvd_packets.items.any (fun st => st.isImportant) &&
    (s.new_lost_event || s.rcvd_unreached_packet ||
      (match s.time_to_sync with
       | some t => decide (t ≤ now)
       | none => false))

/-- Rust's `Iterator::take_while` as used on a shared iterator (`by_ref`):
counts the leading elements satisfying `p` and returns the rest of the
iterator, which has also consumed the first failing element (Rust's
take_while pulls and discards it). -/
def takeWhileConsume {α : Type} (p : α → Bool) : List α → Nat × List α
  | [] => (0, [])
  | x :: xs =>
    if p x then ((takeWhileConsume p xs).1 + 1, (takeWhileConsume p xs).2)
    else (0, xs)

theorem takeWhileConsume_snd_length_le {α : Type} (p : α → Bool) (l : List α) :
    (takeWhileConsume p l).2.length ≤ l.length := by
  induction l with
  | nil => simp [takeWhileConsume]
  | cons x xs ih =>
    simp only [takeWhileConsume]
    split
    · simpa using le_trans ih (Nat.le_succ _)
    · simp

/-- The `loop` of `Space::gen_ack_frame`, src/qrecovery/src/space.rs lines
272-289, on the reversed slot list: `next()`, count a gap with
`take_while(has_not_rcvd)`, `next()`, count a run with
`take_while(has_rcvd)`, push the pair; both take_while calls consume the
element that ends them. The fuel argument only bounds the iteration count
for structural recursion: every iteration consumes at least two elements,
so any fuel at least the list length makes the fuel guard unreachable. -/
def ackRangesLoop : Nat → List RState → List (Nat × Nat)
  | 0, _ => []
  | _, [] => []
  | fuel + 1, _ :: rest =>
    match takeWhileConsume (fun s => s.has_not_rcvd) rest with
    | (_, []) => []
    | (gap, _ :: r2) =>
      (gap, (takeWhileConsume (fun s => s.has_rcvd) r2).1) ::
        ackRangesLoop fuel (takeWhileConsume (fun s => s.has_rcvd) r2).2

/-- `Space::gen_ack_frame` of src/qrecovery/src/space.rs lines 256-299:
panics (`none`) for 0-RTT or when the largest slot has no reception time;
largest is offset + len - 1; delay is the largest slot's elapsed time;
first_range counts the received run at the top (minus one, its take_while
consuming the first unreceived slot); the loop emits (gap, acked) pairs. -/
def SpaceModel.gen_ack_frame (s : SpaceModel) (now : Nat) : Option AckFrame :=
  if s.space_id = SpaceId.ZeroRtt then none
  else
    let largest := s.rcvd_packets.offset + s.rcvd_packets.items.length - 1
    match (s.rcvd_packets.get largest).bind (fun st => st.delay now) with
    | none => none
    | some delay =>
      let rev := s.rcvd_packets.items.reverse
      let fr := takeWhileConsume (fun st => st.has_rcvd) rev
      some
        { largest := largest
          delay := delay
          first_range := fr.1 - 1
          ranges := ackRangesLoop rev.length fr.2
          ecn := none }

/-- `Space::record` of src/qrecovery/src/space.rs lines 231-254: insert the
new reception state (panic, `none`, if the insert fails); when
ack-eliciting and the packet number is a new maximum, scan for a loss
event with `iter_with_idx().rev().skip_while(|(pn, _)| pn >= &pn)` - the
predicate compares the closure's own binding `pn` with itself, so it holds
for every element - then `skip(PACKET_THRESHOLD)`,
`take_while(pn > last_synced_ack_largest)`, `any(NotReceived)`; when the
packet number is below last_synced_ack_largest, set rcvd_unreached_packet;
finally keep time_to_sync or arm it at now + max_ack_delay. -/
def SpaceModel.record (s : SpaceModel) (pkt_id : Nat) (is_ack_eliciting : Bool)
    (now : Nat) : Option SpaceModel :=
  match s.rcvd_packets.insert pkt_id (RState.new_rcvd now is_ack_eliciting)
      RState.NotReceived with
  | none => none
  | some rcvd' =>
    if is_ack_eliciting then
      let s1 := { s with rcvd_packets := rcvd' }
      let s2 :=
        if s1.largest_rcvd_ack_eliciting_pktid < pkt_id then
          let scan :=
            ((((rcvd'.iterWithIdx.reverse.dropWhile (fun p => decide (p.1 ≥ p.1))).drop
              PACKET_THRESHOLD).takeWhile
                (fun p => decide (p.1 > s1.last_synced_ack_largest))).any
              (fun p => p.2.isNotReceived))
          { s1 with
            largest_rcvd_ack_eliciting_pktid := pkt_id
            new_lost_event := s1.new_lost_event || scan }
        else s1
      let s3 :=
        if pkt_id < s2.last_synced_ack_largest then
          { s2 with rcvd_unreached_packet := true }
        else s2
      some { s3 with
        time_to_sync := some (s3.time_to_sync.getD (now + s3.max_ack_delay)) }
    else some { s with rcvd_packets := rcvd' }

/-- The claim's (spec 4.4 and 9) condition for the loss-event scan in
`record`, in the spec's words: some slot with packet number in the interval
(last_synced_ack_largest, pkt_id - PACKET_THRESHOLD] is still NotReceived.
Stated over the post-insert map. -/
def specNewLostCondition (s : SpaceModel) (pkt_id : Nat) (is_ack_eliciting : Bool)
    (now : Nat) : Bool :=
  match s.rcvd_packets.insert pkt_id (RState.new_rcvd now is_ack_eliciting)
      RState.NotReceived with
  | none => false
  | some rcvd' =>
    rcvd'.iterWithIdx.any (fun p =>
      decide (s.last_synced_ack_largest < p.1) &&
        decide (p.1 + PACKET_THRESHOLD ≤ pkt_id) && p.2.isNotReceived)

/-- The descending run of `cnt` packet numbers ending (upward) at `hi`. -/
def pnRangeDesc (hi cnt : Nat) : List Nat :=
  (List.range cnt).map (fun i => hi - i)

/-- Modelled from the spec: the tail of the ACK range walk (spec 4.2):
below the current smallest acknowledged number, each (gap, run) pair skips
gap + 1 numbers and acknowledges run + 1 numbers. -/
def coveredGo : Nat → List (Nat × Nat) → List Nat
  | _, [] => []
  | smallest, (gap, run) :: rs =>
    let hi := smallest - gap - 2
    pnRangeDesc hi (run + 1) ++ coveredGo (hi - run) rs

/-- Modelled from the spec: the packet numbers acknowledged by an AckFrame
(`ack.into_iter()` of qbase/src/frame/ack.rs, absent from src/): the first
range [largest - first_range, largest], then the (gap, run) pairs (spec
4.2), in descending order. -/
def AckFrame.coveredPns (a : AckFrame) : List Nat :=
  pnRangeDesc a.largest (a.first_range + 1) ++
    coveredGo (a.largest - a.first_range) a.ranges

/-- The calls `recv_ack_frame` makes into its collaborators, recorded as
effects: RTT samples fed to `rtt.update` (rtt sample, ack delay,
is_handshake_confirmed), and the ranges passed to the muxers'
`confirm_data` and `may_loss_data` (crypto.rs, streams.rs and rtt.rs are
absent from src/; spec 4.4 and 6 describe their interface). -/
structure RecvAckEffects where
  rtt_samples : List (Nat × Nat × Bool)
  confirmed_crypto : List (Nat × Nat)
  confirmed_stream : List (Nat × Nat)
  lost_crypto : List (Nat × Nat)
  lost_stream : List (Nat × Nat)
  deriving DecidableEq

def RecvAckEffects.empty : RecvAckEffects :=
  ⟨[], [], [], [], []⟩

/-- `Space::confirm` of src/qrecovery/src/space.rs lines 194-211: an Ack
record drains `rcvd_packets` up to its largest minus disorder_tolerance
(saturating); a Pure record hits `todo!()` (modelled as `none`); a Data
record notifies the muxer's confirm_data. -/
def confirmPayload : SpaceModel → RecvAckEffects → List Record →
    Option (SpaceModel × RecvAckEffects)
  | s, eff, [] => some (s, eff)
  | s, eff, r :: rs =>
    match r with
    | .Ack largest =>
      confirmPayload
        { s with rcvd_packets :=
            (s.rcvd_packets.drainTo (largest - s.disorder_tolerance)).2 } eff rs
    | .Pure _ => none
    | .Data (.Crypto f) =>
      confirmPayload s { eff with confirmed_crypto := eff.confirmed_crypto ++ [f] } rs
    | .Data (.Stream f) =>
      confirmPayload s { eff with confirmed_stream := eff.confirmed_stream ++ [f] } rs

/-- The range loop of `Space::recv_ack_frame`, src/qrecovery/src/space.rs
lines 319-334: for every covered packet number, take the inflight record if
present, clear no_newly_acked, accumulate includes_ack_eliciting and the
acked bytes, and confirm the payload. -/
def ackTakeLoop : List Nat → SpaceModel → RecvAckEffects → Bool → Bool → Nat →
    Option (SpaceModel × RecvAckEffects × Bool × Bool × Nat)
  | [], s, eff, noNew, incl, bytes => some (s, eff, noNew, incl, bytes)
  | pn :: rest, s, eff, noNew, incl, bytes =>
    match s.inflight_packets.get pn with
    | some (some pkt) =>
      let s1 := { s with inflight_packets := s.inflight_packets.set pn none }
      match confirmPayload s1 eff pkt.payload with
      | none => none
      | some (s2, eff2) =>
        ackTakeLoop rest s2 eff2 false (incl || pkt.is_ack_eliciting)
          (bytes + pkt.sent_bytes)
    | _ => ackTakeLoop rest s eff noNew incl bytes

/-- The requeue of a lost packet's records, src/qrecovery/src/space.rs lines
371-383 and 398-410: Ack records are dropped, Pure frames are pushed back
onto the pending queue, Data records notify may_loss_data. -/
def requeueRecords : SpaceModel → RecvAckEffects → List Record →
    SpaceModel × RecvAckEffects
  | s, eff, [] => (s, eff)
  | s, eff, r :: rs =>
    match r with
    | .Ack _ => requeueRecords s eff rs
    | .Pure f => requeueRecords { s with frames := s.frames ++ [f] } eff rs
    | .Data (.Crypto f) =>
      requeueRecords s { eff with lost_crypto := eff.lost_crypto ++ [f] } rs
    | .Data (.Stream f) =>
      requeueRecords s { eff with lost_stream := eff.lost_stream ++ [f] } rs

/-- The packet-threshold retransmission walk, src/qrecovery/src/space.rs
lines 365-384: every drained surviving packet adds its sent bytes and
requeues its records. -/
def retransmitDrained : List (Option Packet) → SpaceModel → RecvAckEffects → Nat →
    SpaceModel × RecvAckEffects × Nat
  | [], s, eff, bytes => (s, eff, bytes)
  | none :: rest, s, eff, bytes => retransmitDrained rest s eff bytes
  | some pkt :: rest, s, eff, bytes =>
    let r := requeueRecords s eff pkt.payload
    retransmitDrained rest r.1 r.2 (bytes + pkt.sent_bytes)

/-- The time-threshold loss scan, src/qrecovery/src/space.rs lines 390-417:
over the first PACKET_THRESHOLD slots (`take` before `filter`), a present
packet sent at or before lost_send_time is taken and requeued; a later one
lowers loss_time toward its send_time + loss_delay. Returns the updated
slot list. -/
def timeLossScan : Nat → List (Option Packet) → Nat → Nat → SpaceModel →
    RecvAckEffects → List (Option Packet) × SpaceModel × RecvAckEffects
  | 0, items, _, _, s, eff => (items, s, eff)
  | _, [], _, _, s, eff => ([], s, eff)
  | k + 1, none :: rest, lst, ld, s, eff =>
    let r := timeLossScan k rest lst ld s eff
    (none :: r.1, r.2.1, r.2.2)
  | k + 1, some pkt :: rest, lst, ld, s, eff =>
    if pkt.send_time ≤ lst then
      let q := requeueRecords s eff pkt.payload
      let r := timeLossScan k rest lst ld q.1 q.2
      (none :: r.1, r.2.1, r.2.2)
    else
      let lt := some (min (s.loss_time.getD (pkt.send_time + ld)) (pkt.send_time + ld))
      let s1 := { s with loss_time := lt }
      let r := timeLossScan k rest lst ld s1 eff
      (some pkt :: r.1, r.2.1, r.2.2)

/-- `Space::recv_ack_frame` of src/qrecovery/src/space.rs lines 301-427:
no-op when a larger ACK was already processed; record the new largest; take
every covered inflight packet; return early when nothing was newly acked;
panic (`none`) on ECN counts (`todo!`); then attempt to take the
largest-acked slot again and only there feed the RTT estimator; then the
packet-threshold and time-threshold loss steps and the leading-empty
compaction. `loss_delay` stands for `rtt.loss_delay()`; `lost_send_time`
is now - loss_delay (saturating at zero). The outer `none` is a panic
path; the inner option is the function's Option<usize> result. -/
def SpaceModel.recv_ack_frame (s : SpaceModel) (ack : AckFrame) (now : Nat)
    (loss_delay : Nat) : Option (SpaceModel × RecvAckEffects × Option Nat) :=
  let largest_acked := ack.largest
  if (s.largest_acked_pktid.map (fun v => decide (largest_acked < v))).getD false then
    some (s, RecvAckEffects.empty, none)
  else
    let s0 := { s with largest_acked_pktid := some largest_acked }
    match ackTakeLoop ack.coveredPns s0 RecvAckEffects.empty true false 0 with
    | none => none
    | some (s1, eff1, noNew, incl, bytes1) =>
      if noNew then some (s1, eff1, none)
      else if ack.ecn.isSome then none
      else
        let afterLargest : Option (SpaceModel × RecvAckEffects × Nat) :=
          match s1.inflight_packets.get largest_acked with
          | some (some pkt) =>
            let incl2 := incl || pkt.is_ack_eliciting
            let eff2 :=
              if incl2 then
                { eff1 with rtt_samples := eff1.rtt_samples ++
                    [(now - pkt.send_time, ack.delay,
                      decide (s1.space_id = SpaceId.OneRtt))] }
              else eff1
            let s2 := { s1 with inflight_packets :=
              s1.inflight_packets.set largest_acked none }
            (confirmPayload s2 eff2 pkt.payload).map
              (fun p => (p.1, p.2, bytes1 + pkt.sent_bytes))
          | _ => some (s1, eff1, bytes1)
        match afterLargest with
        | none => none
        | some (s2, eff2, bytes2) =>
          let dr := s2.inflight_packets.drainTo (largest_acked - PACKET_THRESHOLD)
          let s3 := { s2 with inflight_packets := dr.2 }
          let rt := retransmitDrained dr.1 s3 eff2 bytes2
          let s4 := { rt.1 with loss_time := none }
          let lost_send_time := now - loss_delay
          let scan := timeLossScan PACKET_THRESHOLD s4.inflight_packets.items
            lost_send_time loss_delay s4 rt.2.1
          let s5 := { scan.2.1 with inflight_packets :=
            ⟨s4.inflight_packets.offset, scan.1⟩ }
          let n := (s5.inflight_packets.items.takeWhile (fun p => p.isNone)).length
          let s6 := { s5 with inflight_packets := s5.inflight_packets.drainFront n }
          some (s6, scan.2.2, some rt.2.2)

/-- The pending-control-frames loop of `Space::try_send`,
src/qrecovery/src/space.rs lines 486-501: while the queue front fits, write
it, refresh `remaning`, mark ack-eliciting, pop it and continue; when the
front does not fit, break. When the queue front is absent the `if let`
falls through and the loop runs again - there is no exit in that case. The
fuel argument counts loop iterations; `none` means the fuel ran out before
the loop broke, so `none` for every fuel witnesses that the loop never
exits. `bufRem` is `buf.remaining_mut()`; `remaning` the shadowing local. -/
def drainFramesLoop : Nat → List PureFrame → Nat → Nat → List Record → Bool →
    Option (List PureFrame × Nat × Nat × List Record × Bool)
  | 0, _, _, _, _, _ => none
  | fuel + 1, q, bufRem, remaning, payload, isAE =>
    match q with
    | f :: rest =>
      if f.max_encoding_size ≤ remaning ∨ f.encoding_size ≤ remaning then
        drainFramesLoop fuel rest (bufRem - f.encoding_size)
          (bufRem - f.encoding_size) (payload ++ [.Pure f]) true
      else some (q, bufRem, remaning, payload, isAE)
    | [] => drainFramesLoop fuel [] bufRem remaning payload isAE

theorem drainFramesLoop_empty_queue (fuel bufRem remaning : Nat)
    (payload : List Record) (isAE : Bool) :
    drainFramesLoop fuel [] bufRem remaning payload isAE = none := by
  induction fuel with
  | zero => rfl
  | succ n ih => simpa [drainFramesLoop] using ih

/-- `Space::try_send` of src/qrecovery/src/space.rs lines 464-535, fueled.
The buffer is abstracted by its capacity `cap`; writes shrink the tracked
remaining capacity. The muxer calls (`stm_trans.try_send_frame`,
`tls_trans.try_send_data`, `stm_trans.try_send_data`; crypto.rs and
streams.rs are absent from src/, spec 6 gives their interface) are
abstracted by the arguments: `stmCtl` is the optional stream control frame
with the bytes the muxer wrote; `tlsData` lists the crypto data frames it
would produce as (frame, bytes written, ignore); `stmData` the stream data
frames as (frame, bytes written). The outer `none` means no normal return:
the pending-frames loop ran out of fuel (it has no exit on an empty
queue), a panicking path was reached, or the inflight push overflowed
(`?`-propagated error). -/
def SpaceModel.try_send (s : SpaceModel) (fuel : Nat) (cap : Nat) (now : Nat)
    (stmCtl : Option (PureFrame × Nat)) (tlsData : List (DataFrame × Nat × Nat))
    (stmData : List (DataFrame × Nat)) : Option (SpaceModel × Option (Nat × Nat)) :=
  let ackStep : Option (SpaceModel × Nat × Nat × List Record) :=
    if s.need_send_ack_frame now then
      match s.gen_ack_frame now with
      | none => none
      | some ackf =>
        if ackf.max_encoding_size ≤ cap ∨ ackf.encoding_size ≤ cap then
          let s1 := { s with
            time_to_sync := none
            new_lost_event := false
            rcvd_unreached_packet := false
            last_synced_ack_largest := ackf.largest
            rcvd_packets :=
              ⟨s.rcvd_packets.offset, s.rcvd_packets.items.map RState.be_synced⟩ }
          some (s1, cap - ackf.encoding_size, cap - ackf.encoding_size,
            [Record.Ack ackf.largest])
        else some (s, cap, cap, [])
    else some (s, cap, cap, [])
  match ackStep with
  | none => none
  | some (s1, bufRem1, remaning1, payload1) =>
    match drainFramesLoop fuel s1.frames bufRem1 remaning1 payload1 false with
    | none => none
    | some (q2, bufRem2, remaning2, payload2, isAE2) =>
      let s2 := { s1 with frames := q2 }
      let step3 : List Record × Nat :=
        match stmCtl with
        | some (f, w) => (payload2 ++ [Record.Pure f], bufRem2 - w)
        | none => (payload2, bufRem2)
      let step4 : List Record × Nat × Nat :=
        if s2.space_id ≠ SpaceId.ZeroRtt then
          tlsData.foldl
            (fun acc d => (acc.1 ++ [Record.Data d.1], acc.2.1 - d.2.1, acc.2.2 + d.2.2))
            (step3.1, step3.2, remaning2)
        else (step3.1, step3.2, remaning2)
      let step5 : List Record × Nat :=
        stmData.foldl (fun acc d => (acc.1 ++ [Record.Data d.1], acc.2 - d.2))
          (step4.1, step4.2.1)
      let sent := step4.2.2 - step5.2
      if sent = 0 then some (s2, none)
      else
        let s3 :=
          if isAE2 then { s2 with time_of_last_sent_ack_eliciting_packet := some now }
          else s2
        match s3.inflight_packets.push
            (some ⟨now, step5.1, sent, isAE2⟩) with
        | none => none
        | some (pktid, infl) =>
          some ({ s3 with inflight_packets := infl }, some (pktid, sent))

/-- Modelled from the spec: the `Sender` state enum of
qrecovery/src/send/sender.rs (absent from src/) as matched by the Writer
(spec 4.5): Ready, Sending and DataSent carry an inner sender (abstracted
as a Nat state), ResetSent carries the final size. -/
inductive Sender
  | Ready (inner : Nat)
  | Sending (inner : Nat)
  | DataSent (inner : Nat)
  | DataRecvd
  | ResetSent (final_size : Nat)
  | ResetRecvd
  deriving DecidableEq

/-- The observable result of `Writer::poll_write`: the write delegated to
the inner sender (its Poll result abstracted as a Nat), or an immediate
error value. -/
inductive WriteOutcome
  | delegated (result : Nat)
  | errUnsupported
  | errBrokenPipe
  deriving DecidableEq

/-- `Writer::poll_write` of src/qrecovery/src/send/writer.rs lines 16-51:
take the sender; in Ready and Sending delegate to the inner sender's
poll_write and put the same variant back with its new state; in
DataSent/DataRecvd put the state back and return Unsupported; in
ResetSent/ResetRecvd put the state back and return BrokenPipe. The inner
sender's poll_write (sender.rs absent from src/) is abstracted by the
`inner` argument mapping its state to (new state, result). -/
def Writer.poll_write (inner : Nat → Nat × Nat) : Sender → Sender × WriteOutcome
  | .Ready st => (.Ready (inner st).1, .delegated (inner st).2)
  | .Sending st => (.Sending (inner st).1, .delegated (inner st).2)
  | .DataSent st => (.DataSent st, .errUnsupported)
  | .DataRecvd => (.DataRecvd, .errUnsupported)
  | .ResetSent fs => (.ResetSent fs, .errBrokenPipe)
  | .ResetRecvd => (.ResetRecvd, .errBrokenPipe)

/-- Modelled from the spec: `put_padding_frame` (padding.rs absent from
src/), a single zero type byte. -/
def put_padding_frame : List Nat := [0x00]

/-- Modelled from the spec: `put_ping_frame` (ping.rs absent from src/),
the single type byte 0x01. -/
def put_ping_frame : List Nat := [0x01]

theorem varint_roundtrip_nil (v : Nat) (h : v ≤ VARINT_MAX) :
    varintDecode (varintEncode v) = some (v, []) := by
  simpa using varint_roundtrip v [] h

theorem data_blocked_roundtrip (limit : Nat) (h : limit ≤ VARINT_MAX) :
    be_frame (put_data_blocked_frame ⟨limit⟩) =
      some (ReadFrame.DataBlocked ⟨limit⟩, []) := by
  simp only [put_data_blocked_frame, DATA_BLOCKED_FRAME_TYPE, be_frame, be_frame_type,
    varintDecode]
  norm_num
  simp only [FrameType.tryFrom]
  norm_num
  simp only [be_data_blocked_frame]
  rw [varint_roundtrip_nil limit h]
  rfl

theorem max_stream_data_roundtrip (sid mx : Nat) (h1 : sid ≤ VARINT_MAX)
    (h2 : mx ≤ VARINT_MAX) :
    be_frame (put_max_stream_data_frame ⟨sid, mx⟩) =
      some (ReadFrame.MaxStreamData ⟨sid, mx⟩, []) := by
  simp only [put_max_stream_data_frame, MAX_STREAM_DATA_FRAME_TYPE, be_frame,
    be_frame_type, varintDecode]
  norm_num
  simp only [FrameType.tryFrom]
  norm_num
  simp only [be_max_stream_data_frame]
  rw [varint_roundtrip sid _ h1]
  simp [varint_roundtrip_nil mx h2]

/-- C1: the claim says try_send terminates for every buffer and space
state, in particular with an empty pending control-frame queue, returning
Ok immediately. The code's pending-frames loop (space.rs lines 486-501)
has no exit when the queue front is empty, so `try_send` on a fresh space
(whose queue is empty) never returns: for every iteration budget `fuel`,
for every buffer capacity and every muxer behavior, the fueled execution
fails to reach any return. -/
theorem c1_try_send_never_returns_when_pending_queue_empty
    (fuel cap now : Nat) (stmCtl : Option (PureFrame × Nat))
    (tlsData : List (DataFrame × Nat × Nat)) (stmData : List (DataFrame × Nat)) :
    (SpaceModel.build SpaceId.Initial).try_send fuel cap now stmCtl tlsData stmData =
      none := by
  simp [SpaceModel.try_send, SpaceModel.need_send_ack_frame, SpaceModel.build,
    drainFramesLoop_empty_queue]

/-- C2 counterexample: the claim says parse(serialize(f)) = (empty, f) for
every Stream frame, for every offset and flag combination. For the frame
with offset 1 and flag 0 the serializer sets the OFF bit on the wire, and
the parser returns the frame with flag 4, not the original. -/
theorem c2_roundtrip_counterexample :
    be_frame (put_stream_frame ⟨0, 1, 0, 0⟩ []) ≠
      some (ReadFrame.Stream ⟨0, 1, 0, 0⟩ [], []) ∧
    be_frame (put_stream_frame ⟨0, 1, 0, 0⟩ []) =
      some (ReadFrame.Stream ⟨0, 1, 0, 4⟩ [], []) := by
  decide

/-- C2 (amended): parse after serialize is the identity with empty
remainder for the frame kinds whose codecs are under src/ - for every
Stream frame whose flag's OFF bit agrees with the serializer's rule (OFF
set iff offset nonzero), whose length fits the serializer's 32-bit length
write, with offset + length within VARINT_MAX and a body of matching
length - and for every DataBlocked, MaxStreamData, Padding and Ping frame
with varint-valid fields. -/
theorem c2_frame_roundtrip_amended :
    (∀ (f : StreamFrame) (data : List Nat),
      f.id ≤ VARINT_MAX ∧ f.offset + f.length ≤ VARINT_MAX ∧ f.length < 2 ^ 32 ∧
          data.length = f.length ∧ f.flag < 8 ∧
          f.flag &&& OFF_BIT = (if f.offset = 0 then 0 else OFF_BIT) →
        be_frame (put_stream_frame f data) = some (ReadFrame.Stream f data, [])) ∧
    (∀ limit : Nat, limit ≤ VARINT_MAX →
      be_frame (put_data_blocked_frame ⟨limit⟩) =
        some (ReadFrame.DataBlocked ⟨limit⟩, [])) ∧
    (∀ sid mx : Nat, sid ≤ VARINT_MAX → mx ≤ VARINT_MAX →
      be_frame (put_max_stream_data_frame ⟨sid, mx⟩) =
        some (ReadFrame.MaxStreamData ⟨sid, mx⟩, [])) ∧
    be_frame put_padding_frame = some (ReadFrame.Padding, []) ∧
    be_frame put_ping_frame = some (ReadFrame.Ping, []) := by
  refine ⟨?_, ?_, ?_, by decide, by decide⟩
  · intro f data h
    exact stream_frame_roundtrip f data h.1 h.2.1 h.2.2.1 h.2.2.2.1 h.2.2.2.2.1
      h.2.2.2.2.2
  · intro limit h
    exact data_blocked_roundtrip limit h
  · intro sid mx h1 h2
    exact max_stream_data_roundtrip sid mx h1 h2

/-- C2 witness: the amended round-trip at the spec's concrete scenario,
the Stream frame {id 0x1234, offset 0x1234, length 11, flag 0b110} with
body "hello world". -/
theorem c2_roundtrip_witness :
    be_frame (put_stream_frame ⟨0x1234, 0x1234, 11, 6⟩
        [104, 101, 108, 108, 111, 32, 119, 111, 114, 108, 100]) =
      some (ReadFrame.Stream ⟨0x1234, 0x1234, 11, 6⟩
        [104, 101, 108, 108, 111, 32, 119, 111, 114, 108, 100], []) :=
  c2_frame_roundtrip_amended.1 ⟨0x1234, 0x1234, 11, 6⟩
    [104, 101, 108, 108, 111, 32, 119, 111, 114, 108, 100] (by decide)

/-- C3: the claim says a ConnectionClose without a frame-type field is
serialized with type byte 0x1d and one with the field with 0x1c, the
concrete frame {0x1234, None, "wrong"} yielding 1D 52 34 05 77 72 6F 6E
67. The code sets the layer bit to 1 exactly when the field is present
(connection_close.rs lines 99-104), so the frame-type-absent frame is
emitted with 0x1C and the frame-type-present one with 0x1D - the
opposite of the claim. -/
theorem c3_connection_close_emits_inverted_layer_byte :
    put_connection_close_frame ⟨0x1234, none, [0x77, 0x72, 0x6F, 0x6E, 0x67]⟩ =
      [0x1C, 0x52, 0x34, 0x05, 0x77, 0x72, 0x6F, 0x6E, 0x67] ∧
    put_connection_close_frame ⟨0x1234, none, [0x77, 0x72, 0x6F, 0x6E, 0x67]⟩ ≠
      [0x1D, 0x52, 0x34, 0x05, 0x77, 0x72, 0x6F, 0x6E, 0x67] ∧
    (put_connection_close_frame ⟨0x1234, some 0x0e,
        [0x77, 0x72, 0x6F, 0x6E, 0x67]⟩).head? = some 0x1D := by
  decide

/-- C4: the claim says need_send_ack is true iff the space is not 0-RTT,
some rcvd slot is Important, and a trigger holds with time_to_sync ≤ now.
The code (space.rs lines 429-454) never checks for an Important slot and
compares time_to_sync > now: a 1-RTT space with new_lost_event and no
Important slot returns true where the claim says false, and one with an
Important slot and an expired time_to_sync returns false where the claim
says true. -/
theorem c4_need_send_ack_frame_contradicts_spec_condition :
    (SpaceModel.need_send_ack_frame
        { SpaceModel.build SpaceId.OneRtt with new_lost_event := true } 0 = true ∧
      specNeedSendAck
        { SpaceModel.build SpaceId.OneRtt with new_lost_event := true } 0 = false) ∧
    (SpaceModel.need_send_ack_frame
        { SpaceModel.build SpaceId.OneRtt with
            rcvd_packets := ⟨0, [RState.Important 0]⟩
            time_to_sync := some 10 } 100 = false ∧
      specNeedSendAck
        { SpaceModel.build SpaceId.OneRtt with
            rcvd_packets := ⟨0, [RState.Important 0]⟩
            time_to_sync := some 10 } 100 = true) := by
  decide

/-- The concrete inflight packet for the C5 scenario: ack-eliciting, sent
at time 0, 10 bytes, empty payload. -/
def c5Packet : Packet :=
  { send_time := 0, payload := [], sent_bytes := 10, is_ack_eliciting := true }

/-- The concrete space for the C5 scenario: 1-RTT with the single inflight
packet number 0. -/
def c5Space : SpaceModel :=
  { SpaceModel.build SpaceId.OneRtt with inflight_packets := ⟨0, [some c5Packet]⟩ }

/-- The concrete ACK for the C5 scenario: largest 0, first_range 0, so its
ranges cover the largest-acked packet number. -/
def c5Ack : AckFrame :=
  { largest := 0, delay := 7, first_range := 0, ranges := [], ecn := none }

/-- C5: the claim says that when the ACK's ranges cover the largest-acked
number and its inflight record is present and ack-eliciting, processing
feeds exactly one RTT sample. In the code the range loop (space.rs lines
319-334) already takes the largest-acked record, so the later take at
lines 344-347 finds the slot empty and `rtt.update` is never reached: at
this input the record is present and ack-eliciting, the ACK covers it, the
ACK is processed (10 bytes acked), and no RTT sample is fed. -/
theorem c5_recv_ack_feeds_no_rtt_sample :
    c5Space.inflight_packets.get c5Ack.largest = some (some c5Packet) ∧
    c5Packet.is_ack_eliciting = true ∧
    c5Ack.coveredPns = [0] ∧
    (c5Space.recv_ack_frame c5Ack 100 50).map
      (fun r => (r.2.1.rtt_samples, r.2.2)) = some ([], some 10) := by
  decide

/-- The concrete space for the C6 scenario: received packets {1, 2, 4, 7},
all Important (at time 0), the other slots NotReceived. -/
def c6Space : SpaceModel :=
  { SpaceModel.build SpaceId.OneRtt with
    rcvd_packets := ⟨0, [RState.NotReceived, RState.Important 0, RState.Important 0,
      RState.NotReceived, RState.Important 0, RState.NotReceived, RState.NotReceived,
      RState.Important 0]⟩ }

/-- C6: the claim says that for received packets {1, 2, 4, 7} gen_ack_frame
returns largest 7, first_range 0 and ranges [(1,0),(0,1)]. The code's
take_while-based walk (space.rs lines 269-289) consumes the boundary slot
of every run, so it emits ranges [(0, 2)] instead (largest, delay and
first_range agree with the claim). -/
theorem c6_gen_ack_frame_ranges_off_by_one :
    c6Space.gen_ack_frame 10000 =
      some { largest := 7, delay := 10000, first_range := 0, ranges := [(0, 2)],
             ecn := none } ∧
    (c6Space.gen_ack_frame 10000).map AckFrame.ranges ≠ some [(1, 0), (0, 1)] := by
  decide

/-- C7: the claim says record(pn, true) with pn above the previous maximum
sets new_lost_event iff some slot in (last_synced_ack_largest,
pn - PACKET_THRESHOLD] is NotReceived. The scan in the code (space.rs
lines 238-245) starts with `skip_while(|(pn, _)| pn >= &pn)`, whose
predicate compares its own binding with itself and so drops every element:
new_lost_event is never set. After record(0, true) and record(5, true) on
a fresh 1-RTT space, slots 1 and 2 are NotReceived and lie in (0, 2], so
the claim requires new_lost_event, but the code leaves it false. -/
theorem c7_record_never_sets_new_lost_event :
    (((SpaceModel.build SpaceId.OneRtt).record 0 true 0).bind
        (fun a => a.record 5 true 0)).map (fun b => b.new_lost_event) = some false ∧
    ((SpaceModel.build SpaceId.OneRtt).record 0 true 0).map
      (fun a => specNewLostCondition a 5 true 0) = some true := by
  decide

/-- C8: the claim says the parser rejects every unrecognized frame-type
value, including multi-byte values whose low byte matches a recognized
kind, such as 0x108. `be_frame_type` (mod.rs lines 98-104) truncates the
decoded varint with `as u8` before `FrameType::try_from`, so the two-byte
varint 41 08 (value 0x108) is accepted as a Stream frame with flag 0,
while the same low byte at an in-range unknown value (0x18) is rejected. -/
theorem c8_be_frame_type_accepts_0x108 :
    varintDecode [0x41, 0x08] = some (0x108, []) ∧
    be_frame_type [0x41, 0x08] = some (FrameType.Stream 0, []) ∧
    FrameType.tryFrom 0x18 = none := by
  decide

/-- C9: poll_write delegates the write exactly in Ready and Sending,
returns Unsupported exactly in DataSent and DataRecvd, BrokenPipe exactly
in ResetSent and ResetRecvd, and in both error cases the sender state is
put back unchanged - for every inner sender behavior and every state. -/
theorem c9_poll_write_state_contract (inner : Nat → Nat × Nat) (st : Sender) :
    ((Writer.poll_write inner st).2 = WriteOutcome.errUnsupported ↔
      (∃ n, st = Sender.DataSent n) ∨ st = Sender.DataRecvd) ∧
    ((Writer.poll_write inner st).2 = WriteOutcome.errBrokenPipe ↔
      (∃ n, st = Sender.ResetSent n) ∨ st = Sender.ResetRecvd) ∧
    ((∃ x, (Writer.poll_write inner st).2 = WriteOutcome.delegated x) ↔
      (∃ n, st = Sender.Ready n) ∨ (∃ n, st = Sender.Sending n)) ∧
    (((Writer.poll_write inner st).2 = WriteOutcome.errUnsupported ∨
        (Writer.poll_write inner st).2 = WriteOutcome.errBrokenPipe) →
      (Writer.poll_write inner st).1 = st) := by
  cases st <;> simp [Writer.poll_write]

/-- C9 witness: the contract applied at a concrete inner sender and the
state DataSent 3, whose Unsupported error leaves the state unchanged. -/
theorem c9_poll_write_witness :
    (Writer.poll_write (fun n => (n + 1, 0)) (Sender.DataSent 3)).1 =
      Sender.DataSent 3 :=
  (c9_poll_write_state_contract (fun n => (n + 1, 0)) (Sender.DataSent 3)).2.2.2
    (Or.inl (by decide))

/-- C10: the frame_type accessor of DataBlockedFrame returns
FrameType::Crypto (data_blocked.rs lines 16-18), which differs from the
DataBlocked tag, while the codec serializes the frame with wire type byte
0x14 and parses it back as a DataBlocked frame. -/
theorem c10_data_blocked_frame_type_is_crypto (limit : Nat)
    (h : limit ≤ VARINT_MAX) :
    DataBlockedFrame.frame_type ⟨limit⟩ = FrameType.Crypto ∧
    FrameType.Crypto ≠ FrameType.DataBlocked ∧
    put_data_blocked_frame ⟨limit⟩ = DATA_BLOCKED_FRAME_TYPE :: varintEncode limit ∧
    be_frame (put_data_blocked_frame ⟨limit⟩) =
      some (ReadFrame.DataBlocked ⟨limit⟩, []) := by
  exact ⟨rfl, by decide, rfl, data_blocked_roundtrip limit h⟩

/-- C10 witness: the accessor and the codec at the spec's concrete
DataBlocked frame with limit 0x1234 (wire bytes 14 52 34). -/
theorem c10_data_blocked_witness :
    DataBlockedFrame.frame_type ⟨0x1234⟩ = FrameType.Crypto ∧
    FrameType.Crypto ≠ FrameType.DataBlocked ∧
    put_data_blocked_frame ⟨0x1234⟩ = DATA_BLOCKED_FRAME_TYPE :: varintEncode 0x1234 ∧
    be_frame (put_data_blocked_frame ⟨0x1234⟩) =
      some (ReadFrame.DataBlocked ⟨0x1234⟩, []) :=
  c10_data_blocked_frame_type_is_crypto 0x1234 (by decide)

end Quix
